import Mathlib

/-!
Verification development for the fooof spectral parameterization model object.

The repository sources at hand are `fooof/utils/io.py` and the test suite
`fooof/tests/objs/test_fit.py`.  The model object implementation itself
(`fooof/objs/fit.py` together with the `fooof.core` helpers it uses) is not
among the sources, so its behavior is modelled from the specification; every
such definition carries a doc comment starting with "Modelled from the spec:".
Real-valued quantities are embedded as rationals; the real-valued `log10` on
positive inputs is abstracted as a function parameter, since no claim depends
on its concrete values.  Exceptional control flow is embedded with `Except`.
-/

/-- Modelled from the spec: the two aperiodic modes, `fixed` and `knee`, of
the model settings (spec section 3, `fooof/objs/fit.py` missing from the
sources). -/
inductive ApMode where
  | fixed
  | knee
deriving DecidableEq

/-- Modelled from the spec: a raw input power value as passed to `add_data`
or `fit`: a real number (embedded as a rational), a NaN, or a complex value
(one with a nonzero imaginary part).  Frequencies are plain rationals. -/
inductive RawVal where
  | real (q : ℚ)
  | nan
  | complexVal
deriving DecidableEq

/-- Modelled from the spec: a stored spectrum value after the `log10`
transform: a finite value, a NaN, or negative infinity (from `log10 0`). -/
inductive XVal where
  | fin (q : ℚ)
  | nan
  | ninf
deriving DecidableEq

/-- Whether a stored spectrum value is finite. -/
def XVal.isFinite : XVal → Bool
  | .fin _ => true
  | _ => false

/-- Whether a raw input value is complex-valued. -/
def RawVal.isComplex : RawVal → Bool
  | .complexVal => true
  | _ => false

/-- Modelled from the spec: `log10` applied to one raw power value.  The
real-valued logarithm on positive rationals is abstracted as the parameter
`lg`; `log10 0` is negative infinity and the logarithm of a negative or NaN
or complex value is NaN. -/
def xlog10 (lg : ℚ → ℚ) : RawVal → XVal
  | .real q => if 0 < q then .fin (lg q) else if q = 0 then .ninf else .nan
  | .nan => .nan
  | .complexVal => .nan

/-- Modelled from the spec: an exact representation of a stored error-metric
value: `q x` is the rational `x`; `sqrtq x` denotes the (irrational) real
square root of `x`, as produced by the RMSE metric. -/
inductive ErrVal where
  | q (x : ℚ)
  | sqrtq (x : ℚ)
deriving DecidableEq

/-- Modelled from the spec: the payload of a `FitError` (a message describing
the solver failure). -/
structure FitErr where
  msg : String
deriving DecidableEq

/-- Modelled from the spec: the error taxonomy of section 7: `DataError`,
`InconsistentDataError`, `NoDataError`, `FitError` (with payload), and the
parameter-validation `ValueError` for an unrecognized metric name. -/
inductive FooofError where
  | data
  | inconsistentData
  | noData
  | fit (e : FitErr)
  | value
deriving DecidableEq

/-- Modelled from the spec: the three error metrics of section 4.5. -/
inductive Metric where
  | MAE
  | MSE
  | RMSE
deriving DecidableEq

/-- Modelled from the spec: metric selection by name, as the if/elif chain of
`_calc_error`; any name other than the three known ones is unrecognized. -/
def parseMetric (s : String) : Option Metric :=
  if s = "MAE" then some Metric.MAE
  else if s = "MSE" then some Metric.MSE
  else if s = "RMSE" then some Metric.RMSE
  else none

/-- Modelled from the spec: the state of a `PSD` model object
(`fooof/objs/fit.py` missing from the sources).  Settings fields are held
individually because loading can leave some of them unset; result fields use
`none` for the unset (NaN-filled) placeholder. -/
structure PSD where
  peak_width_limits : Option (ℚ × ℚ)
  max_n_peaks : Option ℕ
  min_peak_height : Option ℚ
  peak_threshold : Option ℚ
  aperiodic_mode : Option ApMode
  check_data : Bool
  debug : Bool
  error_metric : String
  freqs : Option (List ℚ)
  power_spectrum : Option (List XVal)
  freq_range : Option (ℚ × ℚ)
  freq_res : Option ℚ
  aperiodic_params_ : Option (List ℚ)
  gaussian_params_ : Option (List (ℚ × ℚ × ℚ))
  peak_params_ : Option (List (ℚ × ℚ × ℚ))
  r_squared_ : Option ℚ
  error_ : Option ErrVal
  modeled_spectrum_ : Option (List XVal)
deriving DecidableEq

/-- Modelled from the spec: the freshly constructed model object `PSD()` -
default settings, check-data mode on, debug mode off, default error metric
MAE, and no data, meta-data or results. -/
def PSD.init : PSD :=
  { peak_width_limits := some (1/2, 12)
    max_n_peaks := some 8
    min_peak_height := some 0
    peak_threshold := some 2
    aperiodic_mode := some ApMode.fixed
    check_data := true
    debug := false
    error_metric := "MAE"
    freqs := none
    power_spectrum := none
    freq_range := none
    freq_res := none
    aperiodic_params_ := none
    gaussian_params_ := none
    peak_params_ := none
    r_squared_ := none
    error_ := none
    modeled_spectrum_ := none }

/-- Modelled from the spec: the `has_data` indicator - whether a spectrum is
loaded. -/
def PSD.has_data (m : PSD) : Bool :=
  m.freqs.isSome && m.power_spectrum.isSome

/-- Modelled from the spec: the `has_model` indicator - whether fit results
are present (the aperiodic parameters are not the NaN placeholder). -/
def PSD.has_model (m : PSD) : Bool :=
  m.aperiodic_params_.isSome

/-- Modelled from the spec: reset every result field (and the reconstructed
modeled spectrum) back to the unset placeholder. -/
def resetResults (m : PSD) : PSD :=
  { m with aperiodic_params_ := none
           gaussian_params_ := none
           peak_params_ := none
           r_squared_ := none
           error_ := none
           modeled_spectrum_ := none }

/-- Whether every result field of the object is the unset placeholder. -/
def resultsUnset (m : PSD) : Bool :=
  m.aperiodic_params_.isNone && m.gaussian_params_.isNone && m.peak_params_.isNone &&
  m.r_squared_.isNone && m.error_.isNone

/-- Modelled from the spec: the debug-mode setter `set_debug_mode`. -/
def PSD.setDebugMode (m : PSD) (b : Bool) : PSD :=
  { m with debug := b }

/-- Modelled from the spec: the check-data-mode setter `set_check_data_mode`. -/
def PSD.setCheckDataMode (m : PSD) (b : Bool) : PSD :=
  { m with check_data := b }

/-- The mean of a list of rationals (sum over length; `0` on the empty
list by the total division of rationals). -/
def mean (xs : List ℚ) : ℚ :=
  xs.sum / (xs.length : ℚ)

/-- Modelled from the spec: the squared Pearson correlation between observed
and modeled spectra (`_calc_r_squared` of the missing `fooof/objs/fit.py`),
written operationally over centered sums: the squared sum of products of
deviations over the product of the sums of squared deviations. -/
def calcRSquaredQ (xs ys : List ℚ) : ℚ :=
  let sxy := (List.zipWith (fun a b => (a - mean xs) * (b - mean ys)) xs ys).sum
  let sxx := (xs.map (fun a => (a - mean xs) * (a - mean xs))).sum
  let syy := (ys.map (fun b => (b - mean ys) * (b - mean ys))).sum
  sxy * sxy / (sxx * syy)

/-- The covariance of two lists (mean-normalized centered product sum), as
in the `corrcoef` formulation. -/
def covQ (xs ys : List ℚ) : ℚ :=
  (List.zipWith (fun a b => (a - mean xs) * (b - mean ys)) xs ys).sum / (xs.length : ℚ)

/-- The variance of a list (mean-normalized centered square sum), as in the
`corrcoef` formulation. -/
def varQ (xs : List ℚ) : ℚ :=
  ((xs.map (fun a => (a - mean xs) * (a - mean xs))).sum) / (xs.length : ℚ)

/-- The squared Pearson correlation coefficient in the textbook `corrcoef`
form: covariance squared over the product of the variances. -/
def corrcoefSq (xs ys : List ℚ) : ℚ :=
  covQ xs ys * covQ xs ys / (varQ xs * varQ ys)

/-- The residual vector observed minus modeled. -/
def residualQ (obs md : List ℚ) : List ℚ :=
  List.zipWith (fun a b => a - b) obs md

/-- Absolute value of a rational, written out for direct computability. -/
def qabs (x : ℚ) : ℚ :=
  if x < 0 then -x else x

/-- Modelled from the spec: mean absolute error over the residual. -/
def maeQ (obs md : List ℚ) : ℚ :=
  mean ((residualQ obs md).map qabs)

/-- Modelled from the spec: mean squared error over the residual. -/
def mseQ (obs md : List ℚ) : ℚ :=
  mean ((residualQ obs md).map (fun r => r * r))

/-- Modelled from the spec: the selected error metric over the residual
observed minus modeled; RMSE is the exact square root of the MSE, held
symbolically by `ErrVal.sqrtq`. -/
def calcErrorQ (mt : Metric) (obs md : List ℚ) : ErrVal :=
  match mt with
  | .MAE => .q (maeQ obs md)
  | .MSE => .q (mseQ obs md)
  | .RMSE => .sqrtq (mseQ obs md)

/-- Extract the rational contents of a stored spectrum when every value is
finite; `none` as soon as any NaN or infinity appears. -/
def finListQ : List XVal → Option (List ℚ)
  | [] => some []
  | .fin q :: rest => (finListQ rest).map (fun l => q :: l)
  | .nan :: _ => none
  | .ninf :: _ => none

/-- Modelled from the spec: `_calc_r_squared` as a state update - computes
the squared Pearson correlation of the stored observed and modeled spectra
and stores it in `r_squared_`; a missing or non-finite spectrum yields the
NaN (unset) placeholder, as `corrcoef` would. -/
def calcRSquaredState (m : PSD) : PSD :=
  match m.power_spectrum >>= finListQ, m.modeled_spectrum_ >>= finListQ with
  | some obs, some md => { m with r_squared_ := some (calcRSquaredQ obs md) }
  | _, _ => { m with r_squared_ := none }

/-- Modelled from the spec: `_calc_error` as a state update - resolves the
metric name (the stored default when none is passed), fails with the
parameter-validation error on an unrecognized name before any state is
touched, and otherwise stores the computed metric in `error_`. -/
def calcErrorState (m : PSD) (metric : Option String) : Except FooofError PSD :=
  match parseMetric (metric.getD m.error_metric) with
  | none => Except.error FooofError.value
  | some mt =>
    match m.power_spectrum >>= finListQ, m.modeled_spectrum_ >>= finListQ with
    | some obs, some md => Except.ok { m with error_ := some (calcErrorQ mt obs md) }
    | _, _ => Except.ok { m with error_ := none }

/-- Modelled from the spec: restriction of the arrays to the given frequency
range, inclusive; `none` when a range is given and nothing survives the
trim (the empty-range failure of section 4.1). -/
def trimQ (fs : List ℚ) (ps : List RawVal) (fr : Option (ℚ × ℚ)) :
    Option (List ℚ × List RawVal) :=
  match fr with
  | none => some (fs, ps)
  | some (lo, hi) =>
    let kept := (List.zip fs ps).filter (fun p => decide (lo ≤ p.1) && decide (p.1 ≤ hi))
    if kept.isEmpty then none else some (kept.map Prod.fst, kept.map Prod.snd)

/-- Modelled from the spec: `_prepare_data` of the missing
`fooof/objs/fit.py` - validates the raw arrays (mismatched lengths, complex
values), trims to the requested range, applies `log10`, and, in check-data
mode, fails fast on any non-finite value in the cleaned spectrum.  Returns
the cleaned frequencies, log-power spectrum, frequency range and frequency
resolution. -/
def prepareData (lg : ℚ → ℚ) (check : Bool) (fs : List ℚ) (ps : List RawVal)
    (fr : Option (ℚ × ℚ)) :
    Except FooofError (List ℚ × List XVal × (ℚ × ℚ) × ℚ) :=
  if fs.length ≠ ps.length then Except.error FooofError.inconsistentData
  else if ps.any RawVal.isComplex then Except.error FooofError.data
  else
    match trimQ fs ps fr with
    | none => Except.error FooofError.data
    | some (tfs, tps) =>
      let spec := tps.map (xlog10 lg)
      if check && spec.any (fun v => !v.isFinite) then Except.error FooofError.data
      else
        Except.ok (tfs, spec, (tfs.headD 0, (tfs.getLast?).getD 0),
                   ((tfs.get? 1).getD 0) - tfs.headD 0)

/-- Modelled from the spec: `add_data` - validates and stores the spectrum
and its meta-data; when `clearResults` is set (the default), prior results
are cleared, otherwise they are retained. -/
def addData (lg : ℚ → ℚ) (m : PSD) (fs : List ℚ) (ps : List RawVal)
    (fr : Option (ℚ × ℚ)) (clearResults : Bool) : Except FooofError PSD :=
  match prepareData lg m.check_data fs ps fr with
  | Except.error e => Except.error e
  | Except.ok (tfs, spec, range, res) =>
    let m1 : PSD :=
      { m with freqs := some tfs
               power_spectrum := some spec
               freq_range := some range
               freq_res := some res }
    Except.ok (if clearResults then resetResults m1 else m1)

/-- The result bundle produced by a successful run of the optimization
stages (sections 4.2 to 4.4): final aperiodic parameters, internal Gaussian
parameters, reported peak parameters, and the reconstructed modeled
spectrum. -/
structure OptResult where
  aperiodic_params : List ℚ
  gaussian_params : List (ℚ × ℚ × ℚ)
  peak_params : List (ℚ × ℚ × ℚ)
  modeled_spectrum : List ℚ
deriving DecidableEq

/-- Modelled from the spec: the data-resolution step at the head of `fit` -
arrays passed in are validated and stored (clearing prior results);
otherwise previously stored data is used, and `NoDataError` is raised when
none exists. -/
def resolveFitData (lg : ℚ → ℚ) (m : PSD) (fs : Option (List ℚ))
    (ps : Option (List RawVal)) (fr : Option (ℚ × ℚ)) : Except FooofError PSD :=
  match fs, ps with
  | some fsv, some psv => addData lg m fsv psv fr true
  | _, _ => if m.has_data then Except.ok m else Except.error FooofError.noData

/-- Modelled from the spec: store a successful optimization result and the
derived goodness-of-fit metrics into the object. -/
def setResults (m : PSD) (obs : List ℚ) (r : OptResult) : PSD :=
  { m with aperiodic_params_ := some r.aperiodic_params
           gaussian_params_ := some r.gaussian_params
           peak_params_ := some r.peak_params
           modeled_spectrum_ := some (r.modeled_spectrum.map XVal.fin)
           r_squared_ := some (calcRSquaredQ obs r.modeled_spectrum)
           error_ := some (calcErrorQ ((parseMetric m.error_metric).getD Metric.MAE)
                             obs r.modeled_spectrum) }

/-- Modelled from the spec: the `fit` orchestration of section 4.6, with the
optimization stages (sections 4.2 to 4.4) abstracted as the explicit
success-or-`FitError` function `opt`, following the design note of section
9.  After data resolution: a spectrum containing non-finite values (possible
only with check-data mode off) yields a null result without invoking the
solver; a `FitError` from the optimization stage is suppressed and all
results reset in normal mode, and propagates uncaught in debug mode; on
success the results and metrics are stored. -/
def PSD.fit (lg : ℚ → ℚ) (opt : List ℚ → List ℚ → Except FitErr OptResult)
    (m : PSD) (fs : Option (List ℚ)) (ps : Option (List RawVal))
    (fr : Option (ℚ × ℚ)) : Except FooofError PSD :=
  match resolveFitData lg m fs ps fr with
  | Except.error e => Except.error e
  | Except.ok m1 =>
    match m1.freqs, m1.power_spectrum with
    | some fqs, some spec =>
      match finListQ spec with
      | none => Except.ok (resetResults m1)
      | some qs =>
        match opt fqs qs with
        | Except.error e =>
          if m1.debug then Except.error (FooofError.fit e)
          else Except.ok (resetResults m1)
        | Except.ok r => Except.ok (setResults m1 qs r)
    | _, _ => Except.error FooofError.noData

/-- Modelled from the spec: the settings group of a persisted model file. -/
structure SavedSettings where
  peak_width_limits : ℚ × ℚ
  max_n_peaks : ℕ
  min_peak_height : ℚ
  peak_threshold : ℚ
  aperiodic_mode : ApMode
deriving DecidableEq

/-- Modelled from the spec: the results group of a persisted model file. -/
structure SavedResults where
  aperiodic_params : List ℚ
  gaussian_params : List (ℚ × ℚ × ℚ)
  peak_params : List (ℚ × ℚ × ℚ)
  r_squared : ℚ
  error : ℚ
deriving DecidableEq

/-- Modelled from the spec: the data group of a persisted model file (the
frequencies and the stored log-power spectrum). -/
structure SavedData where
  freqs : List ℚ
  power_spectrum : List XVal
deriving DecidableEq

/-- Modelled from the spec: the meta-data group of a persisted model file. -/
structure SavedMeta where
  freq_range : ℚ × ℚ
  freq_res : ℚ
deriving DecidableEq

/-- Modelled from the spec: a persisted model file - any subset of the four
groups (settings, results, data, meta-data) may be present. -/
structure SavedFile where
  settings : Option SavedSettings
  results : Option SavedResults
  dataGroup : Option SavedData
  metaData : Option SavedMeta
deriving DecidableEq

/-- Modelled from the spec: aperiodic-mode inference from the number of
stored aperiodic parameters on load (2 means fixed, 3 means knee, anything
else stays unset). -/
def inferApMode (ap : List ℚ) : Option ApMode :=
  if ap.length = 2 then some ApMode.fixed
  else if ap.length = 3 then some ApMode.knee
  else none

/-- Modelled from the spec: the `load` method of the model object
(`fooof/objs/fit.py` and `fooof/core/io.py` missing from the sources) -
clears every group back to its unset representation, then populates exactly
the groups present in the file; when the settings group is absent but
results are present, the aperiodic mode is inferred from the number of
loaded aperiodic parameters. -/
def PSD.load (m : PSD) (f : SavedFile) : PSD :=
  let base : PSD :=
    { m with peak_width_limits := none
             max_n_peaks := none
             min_peak_height := none
             peak_threshold := none
             aperiodic_mode := none
             freqs := none
             power_spectrum := none
             freq_range := none
             freq_res := none
             aperiodic_params_ := none
             gaussian_params_ := none
             peak_params_ := none
             r_squared_ := none
             error_ := none
             modeled_spectrum_ := none }
  let s1 : PSD :=
    match f.settings with
    | some s =>
      { base with peak_width_limits := some s.peak_width_limits
                  max_n_peaks := some s.max_n_peaks
                  min_peak_height := some s.min_peak_height
                  peak_threshold := some s.peak_threshold
                  aperiodic_mode := some s.aperiodic_mode }
    | none => base
  let s2 : PSD :=
    match f.results with
    | some r =>
      { s1 with aperiodic_params_ := some r.aperiodic_params
                gaussian_params_ := some r.gaussian_params
                peak_params_ := some r.peak_params
                r_squared_ := some r.r_squared
                error_ := some (ErrVal.q r.error)
                aperiodic_mode :=
                  if f.settings.isSome then s1.aperiodic_mode
                  else inferApMode r.aperiodic_params }
    | none => s1
  let s3 : PSD :=
    match f.dataGroup with
    | some d => { s2 with freqs := some d.freqs, power_spectrum := some d.power_spectrum }
    | none => s2
  match f.metaData with
  | some md => { s3 with freq_range := some md.freq_range, freq_res := some md.freq_res }
  | none => s3

/-- Whether every data field of the object is unset. -/
def dataUnset (m : PSD) : Bool :=
  m.freqs.isNone && m.power_spectrum.isNone

/-- Whether every data field of the object is populated. -/
def dataSet (m : PSD) : Bool :=
  m.freqs.isSome && m.power_spectrum.isSome

/-- Whether every settings field of the object is populated. -/
def settingsSet (m : PSD) : Bool :=
  m.peak_width_limits.isSome && m.max_n_peaks.isSome && m.min_peak_height.isSome &&
  m.peak_threshold.isSome && m.aperiodic_mode.isSome

/-- Whether every settings field of the object is unset. -/
def settingsUnset (m : PSD) : Bool :=
  m.peak_width_limits.isNone && m.max_n_peaks.isNone && m.min_peak_height.isNone &&
  m.peak_threshold.isNone && m.aperiodic_mode.isNone

/-- Whether every result field of the object is populated. -/
def resultsSet (m : PSD) : Bool :=
  m.aperiodic_params_.isSome && m.gaussian_params_.isSome && m.peak_params_.isSome &&
  m.r_squared_.isSome && m.error_.isSome

/-- Whether every meta-data field of the object is populated. -/
def metaSet (m : PSD) : Bool :=
  m.freq_range.isSome && m.freq_res.isSome

/-- A group (batch) model object, as constructed by `PSDGroup()`; its
contents are opaque to `fooof/utils/io.py`, which only constructs it and
calls its `load` method, so only the fresh state is modelled. -/
structure PSDGroup where
  models : List PSD
deriving DecidableEq

/-- The freshly constructed group object `PSDGroup()`. -/
def PSDGroup.init : PSDGroup := ⟨[]⟩

/-- Embedding of `load_model` from `fooof/utils/io.py`: initializes a fresh
model object and populates it by calling its `load` method (the method lives
in the excluded model object and is passed here as the function
`loadMethod`), forwarding the file name, file path and regenerate flag, and
returns the populated object. -/
def load_model (loadMethod : PSD → String → Option String → Bool → PSD)
    (file_name : String) (file_path : Option String) (regenerate : Bool) : PSD :=
  let model := PSD.init
  loadMethod model file_name file_path regenerate

/-- Embedding of `load_group` from `fooof/utils/io.py`: initializes a fresh
group object and populates it by calling its `load` method (passed here as
the function `loadMethod`), forwarding the file name and file path, and
returns the populated object. -/
def load_group (loadMethod : PSDGroup → String → Option String → PSDGroup)
    (file_name : String) (file_path : Option String) : PSDGroup :=
  let group := PSDGroup.init
  loadMethod group file_name file_path

/-- A log stand-in used by concrete witnesses; the claims are parametric in
the real-valued logarithm, so any function works. -/
def lg0 : ℚ → ℚ := fun _ => 0

/-- An optimization stage that always fails, used by concrete witnesses
(mirroring the monkey-patched failing fit step of the tests). -/
def failOpt : List ℚ → List ℚ → Except FitErr OptResult :=
  fun _ _ => Except.error ⟨"induced failure"⟩

/-- The state reached from a fresh object by adding the three-point spectrum
used by the concrete witnesses. -/
def m1fail : PSD :=
  { PSD.init with freqs := some [1, 2, 3]
                  power_spectrum := some [XVal.fin 0, XVal.fin 0, XVal.fin 0]
                  freq_range := some (1, 3)
                  freq_res := some (2 - 1) }

/-- A fresh model object with check-data mode turned off, used by concrete
witnesses. -/
def mOff : PSD :=
  { PSD.init with check_data := false }

/-- A model object holding prior fit results (the values of the
`FitResults` used in the tests), used by concrete witnesses. -/
def mRes : PSD :=
  { PSD.init with aperiodic_params_ := some [1, 1]
                  gaussian_params_ := some [(10, 1/2, 1/4)]
                  peak_params_ := some [(10, 1/2, 1/2)]
                  r_squared_ := some (19/20)
                  error_ := some (ErrVal.q (1/50)) }

/-- A model object whose observed and modeled spectra are the concrete
five-point vectors of the metric claims, used by concrete witnesses. -/
def mSpec : PSD :=
  { PSD.init with power_spectrum := some (List.map XVal.fin [1, 2, 3, 4, 5])
                  modeled_spectrum_ := some (List.map XVal.fin [1, 2, 5, 4, 5]) }

/-- A results-only persisted file with two aperiodic parameters, used by the
load counterexample. -/
def resOnlyFile : SavedFile :=
  { settings := none
    results := some { aperiodic_params := [1, 2]
                      gaussian_params := []
                      peak_params := []
                      r_squared := 1/2
                      error := 1/10 }
    dataGroup := none
    metaData := none }

/-- The state reached from `mRes` by adding the three-point spectrum used by
the concrete witnesses. -/
def mResData : PSD :=
  { mRes with freqs := some [1, 2, 3]
              power_spectrum := some [XVal.fin 0, XVal.fin 0, XVal.fin 0]
              freq_range := some (1, 3)
              freq_res := some (2 - 1) }

theorem finListQ_map_fin (l : List ℚ) : finListQ (List.map XVal.fin l) = some l := by
  induction l with
  | nil => rfl
  | cons a t ih => simp [finListQ, ih]

theorem finListQ_map_nan (fs : List ℚ) (h : fs ≠ []) :
    finListQ (List.map (fun _ => XVal.nan) fs) = none := by
  cases fs with
  | nil => exact absurd rfl h
  | cons a t => rfl

theorem finListQ_replicate_nan (n : ℕ) (h : n ≠ 0) :
    finListQ (List.replicate n XVal.nan) = none := by
  cases n with
  | zero => exact absurd rfl h
  | succ k => rfl

theorem any_isComplex_map_nan (fs : List ℚ) :
    (List.map (fun _ => RawVal.nan) fs).any RawVal.isComplex = false := by
  induction fs with
  | nil => rfl
  | cons a t ih => simp [RawVal.isComplex, ih] at ih ⊢

theorem calcRSquaredQ_eq_corrcoefSq (xs ys : List ℚ) (hlen : xs.length = ys.length) :
    calcRSquaredQ xs ys = corrcoefSq xs ys := by
  unfold calcRSquaredQ corrcoefSq covQ varQ
  rw [← hlen]
  rcases eq_or_ne ((xs.length : ℚ)) 0 with hn | hn
  · have hx : xs = [] := by
      cases xs with
      | nil => rfl
      | cons a t =>
        norm_cast at hn
    subst hx
    simp
  · rw [div_mul_div_comm, div_mul_div_comm,
      div_div_div_cancel_right₀ (mul_ne_zero hn hn)]

/-- C1: on any fit call whose optimization stage raises a `FitError`, when
debug mode is off the call returns without raising and every result field of
the model object is the unset placeholder afterwards; when debug mode is on
the same `FitError` propagates uncaught out of the call. -/
theorem fit_fiterror_policy (lg : ℚ → ℚ)
    (opt : List ℚ → List ℚ → Except FitErr OptResult)
    (m m1 : PSD) (fs : Option (List ℚ)) (ps : Option (List RawVal))
    (fr : Option (ℚ × ℚ)) (fqs : List ℚ) (spec : List XVal) (qs : List ℚ) (e : FitErr)
    (hres : resolveFitData lg m fs ps fr = Except.ok m1)
    (hfq : m1.freqs = some fqs) (hps : m1.power_spectrum = some spec)
    (hfin : finListQ spec = some qs) (hopt : opt fqs qs = Except.error e) :
    (m1.debug = false →
      PSD.fit lg opt m fs ps fr = Except.ok (resetResults m1) ∧
      resultsUnset (resetResults m1) = true) ∧
    (m1.debug = true → PSD.fit lg opt m fs ps fr = Except.error (FooofError.fit e)) := by
  constructor
  · intro hd
    constructor
    · simp [PSD.fit, hres, hfq, hps, hfin, hopt, hd]
    · simp [resultsUnset, resetResults]
  · intro hd
    simp [PSD.fit, hres, hfq, hps, hfin, hopt, hd]

theorem fit_fiterror_policy_witness :
    PSD.fit lg0 failOpt PSD.init (some [1, 2, 3])
        (some [RawVal.real 1, RawVal.real 1, RawVal.real 1]) none
      = Except.ok (resetResults m1fail) ∧ resultsUnset (resetResults m1fail) = true :=
  (fit_fiterror_policy lg0 failOpt PSD.init m1fail (some [1, 2, 3])
      (some [RawVal.real 1, RawVal.real 1, RawVal.real 1]) none
      [1, 2, 3] [XVal.fin 0, XVal.fin 0, XVal.fin 0] [0, 0, 0] ⟨"induced failure"⟩
      rfl rfl rfl rfl rfl).1 rfl

/-- C2: a fit call with mismatched-length arrays fails with
`InconsistentDataError`, one with complex-valued power fails with
`DataError`, and one with no arrays passed and no stored data fails with
`NoDataError`; all three regardless of the debug flag (the model object is
arbitrary). -/
theorem fit_caller_errors (lg : ℚ → ℚ)
    (opt : List ℚ → List ℚ → Except FitErr OptResult) (m : PSD)
    (fs : List ℚ) (ps : List RawVal) (fr : Option (ℚ × ℚ)) :
    (fs.length ≠ ps.length →
      PSD.fit lg opt m (some fs) (some ps) fr = Except.error FooofError.inconsistentData) ∧
    (fs.length = ps.length → ps.any RawVal.isComplex = true →
      PSD.fit lg opt m (some fs) (some ps) fr = Except.error FooofError.data) ∧
    (m.has_data = false →
      PSD.fit lg opt m none none fr = Except.error FooofError.noData) := by
  refine ⟨?_, ?_, ?_⟩
  · intro h
    simp [PSD.fit, resolveFitData, addData, prepareData, h]
  · intro hl hc
    simp [PSD.fit, resolveFitData, addData, prepareData, hl, hc]
  · intro h
    simp [PSD.fit, resolveFitData, h]

theorem fit_caller_errors_witness :
    PSD.fit lg0 failOpt PSD.init (some [1, 2]) (some [RawVal.real 1]) none
      = Except.error FooofError.inconsistentData ∧
    PSD.fit lg0 failOpt PSD.init (some [1]) (some [RawVal.complexVal]) none
      = Except.error FooofError.data ∧
    PSD.fit lg0 failOpt PSD.init none none none = Except.error FooofError.noData :=
  ⟨(fit_caller_errors lg0 failOpt PSD.init [1, 2] [RawVal.real 1] none).1 (by decide),
   (fit_caller_errors lg0 failOpt PSD.init [1] [RawVal.complexVal] none).2.1 rfl rfl,
   (fit_caller_errors lg0 failOpt PSD.init [] [] none).2.2 rfl⟩

/-- C3: with check-data mode disabled, `add_data` with an all-NaN power
spectrum succeeds and leaves `has_data` true, and a subsequent fit call
completes without raising - for every optimization stage, since the solver
is never consulted on the degenerate input - leaving `has_model` false. -/
theorem fit_nan_data_null (lg : ℚ → ℚ)
    (opt : List ℚ → List ℚ → Except FitErr OptResult) (m : PSD) (fs : List ℚ)
    (hcheck : m.check_data = false) (hne : fs ≠ []) :
    ∃ m1 : PSD,
      addData lg m fs (List.map (fun _ => RawVal.nan) fs) none true = Except.ok m1 ∧
      m1.has_data = true ∧
      PSD.fit lg opt m1 none none none = Except.ok (resetResults m1) ∧
      (resetResults m1).has_model = false := by
  refine
    ⟨resetResults
      { m with
          freqs := some fs
          power_spectrum := some (List.map (fun _ => XVal.nan) fs)
          freq_range := some (fs.headD 0, (fs.getLast?).getD 0)
          freq_res := some (((fs.get? 1).getD 0) - fs.headD 0) },
     ?_, ?_, ?_, ?_⟩
  · simp [addData, prepareData, trimQ, hcheck, RawVal.isComplex,
      List.map_map, Function.comp, xlog10, resetResults]
  · simp [PSD.has_data, resetResults]
  · have hl : fs.length ≠ 0 := fun hl => hne (List.length_eq_zero.mp hl)
    simp [PSD.fit, resolveFitData, PSD.has_data, resetResults,
      finListQ_replicate_nan fs.length hl]
  · simp [PSD.has_model, resetResults]

theorem fit_nan_data_null_witness :
    ∃ m1 : PSD,
      addData lg0 mOff [1, 2, 3] (List.map (fun _ => RawVal.nan) [1, 2, 3]) none true
        = Except.ok m1 ∧
      m1.has_data = true ∧
      PSD.fit lg0 failOpt m1 none none none = Except.ok (resetResults m1) ∧
      (resetResults m1).has_model = false :=
  fit_nan_data_null lg0 failOpt mOff [1, 2, 3] rfl (by decide)

/-- C9: on a model object holding prior results, `add_data` with
`clear_results` false stores the new data (`has_data` true) while retaining
`has_model` true; the same call with `clear_results` true stores the data
but resets results, so `has_model` becomes false. -/
theorem addData_clear_results (lg : ℚ → ℚ) (m m1 m2 : PSD) (fs : List ℚ)
    (ps : List RawVal) (fr : Option (ℚ × ℚ))
    (hmodel : m.has_model = true)
    (h1 : addData lg m fs ps fr false = Except.ok m1)
    (h2 : addData lg m fs ps fr true = Except.ok m2) :
    m1.has_data = true ∧ m1.has_model = true ∧
    m2.has_data = true ∧ m2.has_model = false := by
  rcases hp : prepareData lg m.check_data fs ps fr with e | ⟨tfs, spec, range, res⟩
  · unfold addData at h1
    rw [hp] at h1
    exact absurd h1 (by simp)
  · unfold addData at h1 h2
    rw [hp] at h1 h2
    simp only [Except.ok.injEq, if_true, if_false] at h1 h2
    subst h1
    subst h2
    refine ⟨by simp [PSD.has_data], ?_, by simp [PSD.has_data, resetResults], ?_⟩
    · simp only [PSD.has_model] at hmodel ⊢
      simpa using hmodel
    · simp [PSD.has_model, resetResults]


theorem addData_clear_results_witness :
    mResData.has_data = true ∧ mResData.has_model = true ∧
    (resetResults mResData).has_data = true ∧ (resetResults mResData).has_model = false :=
  addData_clear_results lg0 mRes mResData (resetResults mResData) [1, 2, 3]
    [RawVal.real 10, RawVal.real 10, RawVal.real 10] none rfl rfl rfl

/-- C4: the computed r-squared equals the squared Pearson correlation
coefficient of the observed and modeled spectra (covariance squared over the
product of the variances); on observed [1,2,3,4,5] and modeled [1,2,5,4,5]
it equals 25/33, within 1e-8 of 0.75757575. -/
theorem calc_r_squared_pearson (m : PSD) (obs md : List ℚ)
    (hobs : m.power_spectrum = some (List.map XVal.fin obs))
    (hmd : m.modeled_spectrum_ = some (List.map XVal.fin md))
    (hlen : obs.length = md.length) :
    calcRSquaredState m = { m with r_squared_ := some (corrcoefSq obs md) } ∧
    corrcoefSq [1, 2, 3, 4, 5] [1, 2, 5, 4, 5] = 25 / 33 ∧
    |(25 : ℚ) / 33 - 75757575 / 100000000| < 1 / 100000000 := by
  refine ⟨?_, ?_, ?_⟩
  · rw [← calcRSquaredQ_eq_corrcoefSq obs md hlen]
    simp [calcRSquaredState, hobs, hmd, finListQ_map_fin]
  · rw [← calcRSquaredQ_eq_corrcoefSq [1, 2, 3, 4, 5] [1, 2, 5, 4, 5] rfl]
    norm_num [calcRSquaredQ, mean]
  · rw [abs_sub_lt_iff]
    norm_num

theorem calc_r_squared_pearson_witness :
    calcRSquaredState mSpec
      = { mSpec with r_squared_ := some (corrcoefSq [1, 2, 3, 4, 5] [1, 2, 5, 4, 5]) } ∧
    corrcoefSq [1, 2, 3, 4, 5] [1, 2, 5, 4, 5] = 25 / 33 ∧
    |(25 : ℚ) / 33 - 75757575 / 100000000| < 1 / 100000000 :=
  calc_r_squared_pearson mSpec [1, 2, 3, 4, 5] [1, 2, 5, 4, 5] rfl rfl rfl

/-- C5: the error metric is selected by name from exactly the three options
MAE (the default when no name is given), MSE and RMSE, each computed over
the residual observed minus modeled; on the residual [0,0,2,0,0] over five
points they give 2/5, 4/5 and the square root of 4/5 (held symbolically by
`ErrVal.sqrtq`). -/
theorem calc_error_metrics (m : PSD) (obs md : List ℚ)
    (hname : m.error_metric = "MAE")
    (hobs : m.power_spectrum = some (List.map XVal.fin obs))
    (hmd : m.modeled_spectrum_ = some (List.map XVal.fin md)) :
    calcErrorState m none = Except.ok { m with error_ := some (ErrVal.q (maeQ obs md)) } ∧
    calcErrorState m (some "MSE")
      = Except.ok { m with error_ := some (ErrVal.q (mseQ obs md)) } ∧
    calcErrorState m (some "RMSE")
      = Except.ok { m with error_ := some (ErrVal.sqrtq (mseQ obs md)) } ∧
    (∀ s : String, (parseMetric s).isSome = true ↔ (s = "MAE" ∨ s = "MSE" ∨ s = "RMSE")) ∧
    maeQ [0, 0, 2, 0, 0] [0, 0, 0, 0, 0] = 2 / 5 ∧
    mseQ [0, 0, 2, 0, 0] [0, 0, 0, 0, 0] = 4 / 5 ∧
    calcErrorQ Metric.RMSE [0, 0, 2, 0, 0] [0, 0, 0, 0, 0]
      = ErrVal.sqrtq (mseQ [0, 0, 2, 0, 0] [0, 0, 0, 0, 0]) := by
  refine ⟨?_, ?_, ?_, ?_, ?_, ?_, rfl⟩
  · simp [calcErrorState, hname, parseMetric, hobs, hmd, finListQ_map_fin, calcErrorQ]
  · simp [calcErrorState, parseMetric, hobs, hmd, finListQ_map_fin, calcErrorQ]
  · simp [calcErrorState, parseMetric, hobs, hmd, finListQ_map_fin, calcErrorQ]
  · intro s
    constructor
    · intro h
      by_cases h1 : s = "MAE"
      · exact Or.inl h1
      · by_cases h2 : s = "MSE"
        · exact Or.inr (Or.inl h2)
        · by_cases h3 : s = "RMSE"
          · exact Or.inr (Or.inr h3)
          · simp [parseMetric, h1, h2, h3] at h
    · rintro (h | h | h) <;> simp [parseMetric, h]
  · norm_num [maeQ, mean, residualQ, qabs]
  · norm_num [mseQ, mean, residualQ]

theorem calc_error_metrics_witness :
    calcErrorState mSpec none
      = Except.ok { mSpec with
          error_ := some (ErrVal.q (maeQ [1, 2, 3, 4, 5] [1, 2, 5, 4, 5])) } ∧
    calcErrorState mSpec (some "MSE")
      = Except.ok { mSpec with
          error_ := some (ErrVal.q (mseQ [1, 2, 3, 4, 5] [1, 2, 5, 4, 5])) } ∧
    calcErrorState mSpec (some "RMSE")
      = Except.ok { mSpec with
          error_ := some (ErrVal.sqrtq (mseQ [1, 2, 3, 4, 5] [1, 2, 5, 4, 5])) } ∧
    (∀ s : String, (parseMetric s).isSome = true ↔ (s = "MAE" ∨ s = "MSE" ∨ s = "RMSE")) ∧
    maeQ [0, 0, 2, 0, 0] [0, 0, 0, 0, 0] = 2 / 5 ∧
    mseQ [0, 0, 2, 0, 0] [0, 0, 0, 0, 0] = 4 / 5 ∧
    calcErrorQ Metric.RMSE [0, 0, 2, 0, 0] [0, 0, 0, 0, 0]
      = ErrVal.sqrtq (mseQ [0, 0, 2, 0, 0] [0, 0, 0, 0, 0]) :=
  calc_error_metrics mSpec [1, 2, 3, 4, 5] [1, 2, 5, 4, 5] rfl rfl rfl

/-- C6: on a model object holding prior results, requesting the error
calculation with an unrecognized metric name fails with the
parameter-validation error and produces no updated state, leaving prior
results untouched. -/
theorem calc_error_unknown_metric (m : PSD) (s : String)
    (hmodel : m.has_model = true) (hbad : parseMetric s = none) :
    calcErrorState m (some s) = Except.error FooofError.value ∧
    ∀ m1 : PSD, calcErrorState m (some s) ≠ Except.ok m1 := by
  have h : calcErrorState m (some s) = Except.error FooofError.value := by
    simp [calcErrorState, hbad]
  refine ⟨h, fun m1 hm1 => ?_⟩
  rw [h] at hm1
  exact absurd hm1 (by simp)

theorem calc_error_unknown_metric_witness :
    calcErrorState mRes (some "BAD") = Except.error FooofError.value ∧
    ∀ m1 : PSD, calcErrorState mRes (some "BAD") ≠ Except.ok m1 :=
  calc_error_unknown_metric mRes "BAD" rfl rfl

/-- C7 counterexample: with check-data mode disabled, `add_data` on a
one-point spectrum with power 0 - whose log transform is negative infinity,
a non-finite value - succeeds instead of raising `DataError`, refuting the
claim as stated (its error clause holds only in check-data mode). -/
theorem addData_nonfinite_log_no_error :
    (xlog10 lg0 (RawVal.real 0)).isFinite = false ∧
    addData lg0 mOff [1] [RawVal.real 0] none true
      = Except.ok { mOff with freqs := some [1]
                              power_spectrum := some [XVal.ninf]
                              freq_range := some (1, 1)
                              freq_res := some (0 - 1) } :=
  ⟨rfl, rfl⟩

/-- C7 (amended): `add_data` applies `log10`, so that on success (no trim
range given) the stored power spectrum is exactly the element-wise log
transform of the input power array; and when check-data mode is enabled (the
default), if the log transform yields any NaN or infinite value, validation
fails with `DataError`. -/
theorem addData_log_transform (lg : ℚ → ℚ) (m : PSD) (fs : List ℚ)
    (ps : List RawVal) (c : Bool)
    (hlen : fs.length = ps.length) (hcheck : m.check_data = true) :
    ((ps.map (xlog10 lg)).all XVal.isFinite = true →
      ∃ m1 : PSD, addData lg m fs ps none c = Except.ok m1 ∧
        m1.power_spectrum = some (ps.map (xlog10 lg))) ∧
    ((ps.map (xlog10 lg)).any (fun v => !v.isFinite) = true →
      addData lg m fs ps none c = Except.error FooofError.data) := by
  constructor
  · intro hall
    have hnc : ps.any RawVal.isComplex = false := by
      rw [List.any_eq_false]
      intro x hx
      cases x with
      | real q => simp [RawVal.isComplex]
      | nan =>
        have := List.all_eq_true.mp hall (xlog10 lg RawVal.nan) (List.mem_map_of_mem _ hx)
        exact absurd this (by simp [xlog10, XVal.isFinite])
      | complexVal =>
        have := List.all_eq_true.mp hall (xlog10 lg RawVal.complexVal)
          (List.mem_map_of_mem _ hx)
        exact absurd this (by simp [xlog10, XVal.isFinite])
    have hnone : (List.map (xlog10 lg) ps).any (fun v => !v.isFinite) = false := by
      rw [List.any_eq_false]
      intro v hv
      have := List.all_eq_true.mp hall v hv
      simp [this]
    simp only [addData, prepareData, trimQ, hlen, hcheck, hnc, hnone]
    simp only [ne_eq, not_true_eq_false, if_false, Bool.false_eq_true, true_and]
    cases c
    · exact ⟨_, rfl, rfl⟩
    · exact ⟨_, rfl, rfl⟩
  · intro hany
    by_cases hc2 : ps.any RawVal.isComplex = true
    · simp [addData, prepareData, hlen, hc2]
    · rw [Bool.not_eq_true] at hc2
      simp [addData, prepareData, trimQ, hlen, hc2, hcheck, hany]

theorem addData_log_transform_witness :
    (∃ m1 : PSD,
        addData lg0 PSD.init [1, 2] [RawVal.real 1, RawVal.real 10] none true
          = Except.ok m1 ∧
        m1.power_spectrum = some ([RawVal.real 1, RawVal.real 10].map (xlog10 lg0))) ∧
    addData lg0 PSD.init [1, 2] [RawVal.real 1, RawVal.real 0] none true
      = Except.error FooofError.data :=
  ⟨(addData_log_transform lg0 PSD.init [1, 2] [RawVal.real 1, RawVal.real 10] true
      rfl rfl).1 rfl,
   (addData_log_transform lg0 PSD.init [1, 2] [RawVal.real 1, RawVal.real 0] true
      rfl rfl).2 rfl⟩

/-- C8 counterexample: loading a results-only file into a fresh object sets
the aperiodic-mode settings field (inferred from the two loaded aperiodic
parameters), so it is not the case that a results-only load leaves every
settings field unset. -/
theorem load_results_only_infers_mode :
    (PSD.load PSD.init resOnlyFile).aperiodic_mode = some ApMode.fixed ∧
    ¬ (PSD.load PSD.init resOnlyFile).aperiodic_mode = none := by
  constructor
  · rfl
  · intro h
    rw [show (PSD.load PSD.init resOnlyFile).aperiodic_mode = some ApMode.fixed from rfl] at h
    exact absurd h (by simp)

/-- C8 (amended): loading a persisted subset populates exactly that subset:
a settings-only load leaves all result fields at the unset placeholder and
all data fields unset; a results-only load populates the results and leaves
every data field and every settings field unset except the aperiodic mode,
which is inferred from the number of loaded aperiodic parameters; a
data-only load leaves settings and results unset; loading a file with all
groups populates settings, results, data and meta-data. -/
theorem load_subset_population (m : PSD) (st : SavedSettings) (res : SavedResults)
    (dat : SavedData) (met : SavedMeta) :
    (resultsUnset (PSD.load m ⟨some st, none, none, none⟩) = true ∧
     dataUnset (PSD.load m ⟨some st, none, none, none⟩) = true ∧
     settingsSet (PSD.load m ⟨some st, none, none, none⟩) = true) ∧
    (resultsSet (PSD.load m ⟨none, some res, none, none⟩) = true ∧
     dataUnset (PSD.load m ⟨none, some res, none, none⟩) = true ∧
     (PSD.load m ⟨none, some res, none, none⟩).peak_width_limits = none ∧
     (PSD.load m ⟨none, some res, none, none⟩).max_n_peaks = none ∧
     (PSD.load m ⟨none, some res, none, none⟩).min_peak_height = none ∧
     (PSD.load m ⟨none, some res, none, none⟩).peak_threshold = none ∧
     (PSD.load m ⟨none, some res, none, none⟩).aperiodic_mode
       = inferApMode res.aperiodic_params) ∧
    (dataSet (PSD.load m ⟨none, none, some dat, none⟩) = true ∧
     resultsUnset (PSD.load m ⟨none, none, some dat, none⟩) = true ∧
     settingsUnset (PSD.load m ⟨none, none, some dat, none⟩) = true) ∧
    (settingsSet (PSD.load m ⟨some st, some res, some dat, some met⟩) = true ∧
     resultsSet (PSD.load m ⟨some st, some res, some dat, some met⟩) = true ∧
     dataSet (PSD.load m ⟨some st, some res, some dat, some met⟩) = true ∧
     metaSet (PSD.load m ⟨some st, some res, some dat, some met⟩) = true) :=
  ⟨⟨rfl, rfl, rfl⟩, ⟨rfl, rfl, rfl, rfl, rfl, rfl, rfl⟩, ⟨rfl, rfl, rfl⟩,
   ⟨rfl, rfl, rfl, rfl⟩⟩

/-- C10: `load_model` constructs a brand-new, empty model object, populates
it by calling its `load` method with the given file name, file path and
regenerate flag, and returns that object; `load_group` likewise constructs
and returns a brand-new group object populated via its `load` method - the
result depends only on the fresh object and the arguments, with no shared
pre-existing model object consulted or mutated. -/
theorem load_model_load_group_fresh :
    (∀ (loadMethod : PSD → String → Option String → Bool → PSD)
       (file_name : String) (file_path : Option String) (regenerate : Bool),
       load_model loadMethod file_name file_path regenerate
         = loadMethod PSD.init file_name file_path regenerate) ∧
    PSD.init.has_data = false ∧ PSD.init.has_model = false ∧
    (∀ (loadMethod : PSDGroup → String → Option String → PSDGroup)
       (file_name : String) (file_path : Option String),
       load_group loadMethod file_name file_path
         = loadMethod PSDGroup.init file_name file_path) ∧
    PSDGroup.init.models = [] :=
  ⟨fun _ _ _ _ => rfl, rfl, rfl, fun _ _ _ => rfl, rfl⟩
